import Mathlib

/-!
# Exposure timer controller (`src/main.cpp`)

A shallow embedding of the firmware of the UV exposure timer: the globals of
`main.cpp` become the fields of `Controller`, every function of the file
becomes a function on `Controller`, and the values returned by the hardware
libraries during one call of `checkState` are the fields of `Inputs`.

Integer widths are those of the AVR target the file is written for (it
programs `PCICR` / `PCMSK1`): `long unsigned` has 32 bits, `int` and
`short int` have 16 bits.

`Serial.print` calls are left out (diagnostics only).  Calls to the display
and to `playSong` are recorded, latest first, in the field `out`.

The countdown scheduler `interval` is an `IntervalCounter`, a class of an
external library whose code is not in `src/`.  Its state and its operations
`startForCount`, `pause`, `stop` and the delivery of ticks are modelled from
the scheduler contract of the specification; each such definition says so.
The callbacks that `main.cpp` registers on it (`onUpdate`, `onStop`,
`blinkUpdate`) are translated from the source.
-/

namespace UvLed

/-! ## Machine arithmetic -/

/-- Number of values of a `long unsigned` (32 bits). -/
def ULONG_MOD : Nat := 4294967296

/-- Addition of two `long unsigned` values. -/
def uadd (a b : Nat) : Nat := (a + b) % ULONG_MOD

/-- Subtraction of two `long unsigned` values. -/
def usub (a b : Nat) : Nat := (a + (ULONG_MOD - b % ULONG_MOD)) % ULONG_MOD

/-- Conversion of an integer to a 16-bit signed `int` / `short int`; a value
out of range wraps (two's complement). -/
def toShort (z : Int) : Int := (z + 32768) % 65536 - 32768

/-- Conversion of an `int` to `long unsigned`, as done by the usual arithmetic
conversions in `exposureTime - currentTime`. -/
def toULong (z : Int) : Nat := Int.toNat (z % 4294967296)

/-! ## Data -/

/-- The enum `STATE`. -/
inductive STATE where
  | SETUP
  | INITIAL
  | TIMER_EDITABLE
  | TIMER_SET
  | TIMER_RUNNING
  | TIMER_PAUSED
  | SECRET
  deriving DecidableEq, Repr

/-- Calls made to the display and the buzzer. -/
inductive Effect where
  | displayBegin
  | clear
  | setBacklight (level : Nat)
  | snake (repeats : Nat)
  | printTime (minutes seconds : Nat)
  | scrollingText (repeats : Nat)
  | flush
  | playSong
  deriving DecidableEq, Repr

/-- Modelled from the spec: the three conditions of the periodic scheduler
(`IntervalCounter`, an external library that is not part of `src/`), which
"supports pause/resume/stop". -/
inductive Phase where
  | stopped
  | running
  | paused
  deriving DecidableEq, Repr

/-- Modelled from the spec: the countdown scheduler `interval`
(`IntervalCounter`, not part of `src/`): "fires callbacks at a fixed cadence,
optionally bounded by a target count"; "a scheduler tick increments an
internal elapsed-count". `count` is the elapsed count and `target` the
target count given to `startForCount`. -/
structure IntervalCounter where
  phase : Phase
  count : Nat
  target : Nat
  deriving DecidableEq, Repr

/-- Modelled from the spec: `startForCount(targetCount)`. On a paused
scheduler it is the resume operation of the transition table (Paused,
start-press: "resume countdown scheduler"): "resuming continues from the
same elapsed value". Otherwise the countdown starts with elapsed count 0. -/
def IntervalCounter.startForCount (t : IntervalCounter) (n : Nat) : IntervalCounter :=
  match t.phase with
  | .paused => { t with phase := .running, target := n }
  | _ => { phase := .running, count := 0, target := n }

/-- Modelled from the spec: `pause()`: "pausing suspends the countdown
without resetting elapsed". -/
def IntervalCounter.pause (t : IntervalCounter) : IntervalCounter :=
  match t.phase with
  | .running => { t with phase := .paused }
  | _ => t

/-- Modelled from the spec: `stop()`: the countdown is stopped; no callback
is fired (the on-stop callback is for natural completion only). -/
def IntervalCounter.stop (t : IntervalCounter) : IntervalCounter :=
  { t with phase := .stopped }

/-- The globals of `main.cpp`, the static local `position` of `readEncoder`,
the level last written to the `UV_LED` pin, the countdown scheduler
`interval`, and the calls made so far to the display and buzzer (latest
first). -/
structure Controller where
  state : STATE
  blinking : Bool
  showDisplay : Bool
  exposureTime : Nat
  secretButton : Int
  position : Int
  uvLed : Bool
  interval : IntervalCounter
  out : List Effect
  deriving DecidableEq, Repr

/-- What the input libraries return during one call of `checkState`: the
result of `getSingleDebouncedPress()` for each of the three buttons, and the
values of the locals `newPosition` and `direction` of `readEncoder`. -/
structure Inputs where
  encoderButton : Bool
  startButton : Bool
  stopButton : Bool
  newPosition : Int
  direction : Int
  deriving DecidableEq, Repr

/-! ## Functions of `main.cpp` -/

/-- The function `getMinutes`. -/
def getMinutes (totalSeconds : Nat) : Nat := (totalSeconds % 3600) / 60

/-- The function `getSeconds`. -/
def getSeconds (totalSeconds : Nat) : Nat := totalSeconds % 60

/-- The function `printTime`. -/
def printTime (s : Controller) (seconds : Nat) : Controller :=
  { s with out := Effect.printTime (getMinutes seconds) (getSeconds seconds) :: s.out }

/-- A call `digitalWrite(UV_LED, level)`. -/
def digitalWriteUvLed (s : Controller) (level : Bool) : Controller :=
  { s with uvLed := level }

/-- A call of a display method other than `printTime`. -/
def display (s : Controller) (e : Effect) : Controller :=
  { s with out := e :: s.out }

/-- The function `startTimer`; the two callbacks it registers are `onUpdate`
and `onStop` below. -/
def startTimer (s : Controller) : Controller :=
  let s1 := { s with interval := s.interval.startForCount s.exposureTime }
  digitalWriteUvLed s1 true

/-- The function `pauseTimer`. -/
def pauseTimer (s : Controller) : Controller :=
  { s with interval := s.interval.pause }

/-- The function `stopTimer`. -/
def stopTimer (s : Controller) : Controller :=
  { s with interval := s.interval.stop }

/-- The function `setState`. -/
def setState (s : Controller) (newState : STATE) : Controller :=
  let s1 := if newState ≠ STATE.TIMER_RUNNING then digitalWriteUvLed s false else s
  let s2 :=
    if s1.state = STATE.TIMER_EDITABLE then
      printTime { s1 with showDisplay := true, blinking := false } s1.exposureTime
    else s1
  let s3 := { s2 with state := newState }
  match newState with
  | .SETUP => s3
  | .INITIAL =>
    let s4 := stopTimer s3
    let s5 := { s4 with exposureTime := 0 }
    let s6 := printTime s5 s5.exposureTime
    display s6 (Effect.snake 1)
  | .TIMER_EDITABLE => { s3 with blinking := true }
  | .TIMER_SET => s3
  | .TIMER_RUNNING => startTimer s3
  | .TIMER_PAUSED => pauseTimer s3
  | .SECRET => s3

/-- The function `handleSecret`. -/
def handleSecret (s : Controller) : Controller :=
  let s1 := display s (Effect.scrollingText 1)
  let s2 := display s1 Effect.flush
  let s3 := { s2 with out := Effect.printTime 66 66 :: s2.out }
  let s4 := display s3 Effect.playSong
  setState s4 STATE.INITIAL

/-- The callback given to `blinkInterval.onUpdate` in `initBlinkInterval`. -/
def blinkUpdate (s : Controller) : Controller :=
  if s.blinking then
    let s1 := { s with showDisplay := !s.showDisplay }
    if s1.showDisplay then printTime s1 s1.exposureTime
    else display s1 Effect.clear
  else s

/-- The callback given to `interval.onUpdate` in `startTimer`. -/
def onUpdate (s : Controller) : Controller :=
  let currentTime : Int := toShort s.interval.count
  printTime s (usub s.exposureTime (toULong currentTime))

/-- The callback given to `interval.onStop` in `startTimer`. -/
def onStop (s : Controller) : Controller :=
  let s1 := { s with exposureTime := 0 }
  let s2 := digitalWriteUvLed s1 false
  setState s2 STATE.INITIAL

/-- The function `readEncoder`; `newPosition` and `direction` are the values
of its two locals of the same names. -/
def readEncoder (s : Controller) (newPosition direction : Int) : Controller :=
  if newPosition ≠ s.position then
    let s1 :=
      if direction = -1 then
        if s.exposureTime ≥ 5 then { s with exposureTime := usub s.exposureTime 5 }
        else { s with exposureTime := 0 }
      else s
    let s2 :=
      if direction = 1 then { s1 with exposureTime := uadd s1.exposureTime 5 }
      else s1
    { s2 with position := newPosition }
  else s

/-- The function `checkState`. -/
def checkState (s : Controller) (i : Inputs) : Controller :=
  match s.state with
  | .SETUP => setState s STATE.INITIAL
  | .INITIAL =>
    let s1 := if i.encoderButton then setState s STATE.TIMER_EDITABLE else s
    if i.stopButton then
      let s2 := { s1 with secretButton := toShort (s1.secretButton + 1) }
      if s2.secretButton = 5 then
        setState { s2 with secretButton := 0 } STATE.SECRET
      else s2
    else s1
  | .TIMER_EDITABLE =>
    let s1 :=
      if i.encoderButton then
        if s.exposureTime = 0 then setState s STATE.INITIAL
        else setState s STATE.TIMER_SET
      else s
    let s2 := if i.stopButton then setState s1 STATE.INITIAL else s1
    readEncoder s2 i.newPosition i.direction
  | .TIMER_SET =>
    let s1 := if i.encoderButton then setState s STATE.TIMER_EDITABLE else s
    let s2 := if i.startButton then setState s1 STATE.TIMER_RUNNING else s1
    if i.stopButton then setState s2 STATE.INITIAL else s2
  | .TIMER_RUNNING =>
    if i.stopButton then setState s STATE.TIMER_PAUSED else s
  | .TIMER_PAUSED =>
    let s1 := if i.encoderButton then setState s STATE.TIMER_EDITABLE else s
    let s2 := if i.startButton then setState s1 STATE.TIMER_RUNNING else s1
    if i.stopButton then setState s2 STATE.INITIAL else s2
  | .SECRET => handleSecret s

/-! ## The scheduler driving the callbacks -/

/-- Modelled from the spec: whether the next tick of the countdown cadence
completes the countdown ("natural completion (elapsed reached
ExposureDuration)"): the scheduler is running and the incremented elapsed
count reaches the target count. -/
def completesOnTick (s : Controller) : Bool :=
  decide (s.interval.phase = Phase.running) && decide (s.interval.target ≤ s.interval.count + 1)

/-- Modelled from the spec: one tick of the countdown cadence seen by
`interval.update()`. A scheduler that is not running delivers nothing. A
running one increments its elapsed count and fires the on-tick callback;
when the elapsed count has reached the target count it then signals natural
completion by firing the on-stop callback. -/
def countdownTick (s : Controller) : Controller :=
  match s.interval.phase with
  | .running =>
    let s1 := { s with interval := { s.interval with count := s.interval.count + 1 } }
    let s2 := onUpdate s1
    if s2.interval.target ≤ s2.interval.count then onStop s2 else s2
  | _ => s

/-- Modelled from the spec: the scheduler signalling natural completion on
its own: the on-stop callback fires if the scheduler is running. -/
def naturalStop (s : Controller) : Controller :=
  match s.interval.phase with
  | .running => onStop s
  | _ => s

/-- The state in which `setup` leaves the device: the initial values of the
globals, `UV_LED` low, the display calls of `initDisplay`, and the countdown
scheduler not started. -/
def powerOn : Controller :=
  { state := STATE.INITIAL
    blinking := false
    showDisplay := true
    exposureTime := 0
    secretButton := 0
    position := 0
    uvLed := false
    interval := { phase := Phase.stopped, count := 0, target := 0 }
    out := [Effect.printTime 0 0, Effect.snake 3, Effect.setBacklight 100,
            Effect.clear, Effect.displayBegin] }

/-- What can happen between two observations of the device: a call of
`checkState` with the given inputs, a tick of the blink cadence, a tick of
the countdown cadence, or the countdown scheduler signalling completion. -/
inductive Event where
  | poll (i : Inputs)
  | blinkTick
  | countdownTick
  | naturalStop
  deriving DecidableEq, Repr

/-- The effect of one event. -/
def step (s : Controller) : Event → Controller
  | .poll i => checkState s i
  | .blinkTick => blinkUpdate s
  | .countdownTick => countdownTick s
  | .naturalStop => naturalStop s

/-- The effect of a sequence of events. -/
def run (s : Controller) (es : List Event) : Controller := es.foldl step s

/-- The states reachable from power-on. -/
inductive Reachable : Controller → Prop where
  | init : Reachable powerOn
  | next (s : Controller) (e : Event) : Reachable s → Reachable (step s e)

/-- The state after `n` ticks of the countdown cadence. -/
def ticks : Nat → Controller → Controller
  | 0, s => s
  | n + 1, s => ticks n (countdownTick s)

/-- How many of the next `n` ticks of the countdown cadence signal natural
completion. -/
def completions : Nat → Controller → Nat
  | 0, _ => 0
  | n + 1, s => (if completesOnTick s then 1 else 0) + completions n (countdownTick s)

/-- A sequence of encoder reads, each given by the values of `newPosition`
and `direction`. -/
def readEncoders (s : Controller) (reads : List (Int × Int)) : Controller :=
  reads.foldl (fun c r => readEncoder c r.1 r.2) s

/-- The relay invariant: the UV output is on exactly in `TIMER_RUNNING`. -/
def RelayInv (s : Controller) : Prop := s.uvLed = true ↔ s.state = STATE.TIMER_RUNNING

/-! ## Inputs and states used as concrete examples -/

/-- A poll with no button pressed, the encoder reporting position `p` and
direction `d`. -/
def turn (p d : Int) : Inputs :=
  { encoderButton := false, startButton := false, stopButton := false,
    newPosition := p, direction := d }

/-- A poll reporting a press of the encoder button only. -/
def confirmPress (p : Int) : Inputs := { turn p 0 with encoderButton := true }

/-- A poll reporting a press of the start button only. -/
def startPress (p : Int) : Inputs := { turn p 0 with startButton := true }

/-- A poll reporting a press of the stop button only. -/
def cancelPress (p : Int) : Inputs := { turn p 0 with stopButton := true }

/-- Power-on, then a press of the encoder button: `TIMER_EDITABLE` with
duration 0. -/
def editing0 : Controller := checkState powerOn (confirmPress 0)

/-- Then six encoder steps in the positive direction, one per poll. -/
def editing30 : Controller :=
  [turn 1 1, turn 2 1, turn 3 1, turn 4 1, turn 5 1, turn 6 1].foldl checkState editing0

/-- Then a press of the encoder button. -/
def armed30 : Controller := checkState editing30 (confirmPress 6)

/-- Then a press of the start button. -/
def running30 : Controller := checkState armed30 (startPress 6)

/-- A state in `TIMER_EDITABLE` whose exposure time is the largest
`long unsigned` value. -/
def editingMax : Controller := { editing0 with exposureTime := 4294967295 }

/-- The state after a sequence of calls of `checkState`, one per element of
`inputs`. -/
def polls (s : Controller) (inputs : List Inputs) : Controller :=
  inputs.foldl checkState s

/-- A poll reporting a press of the encoder button together with an encoder
read of position `p` and direction `d`. -/
def confirmWithTurn (p d : Int) : Inputs := { turn p d with encoderButton := true }

/-- A poll reporting a press of the stop button together with an encoder
read of position `p` and direction `d`. -/
def cancelWithTurn (p d : Int) : Inputs := { turn p d with stopButton := true }

/-- Power-on, a press of the encoder button, one positive encoder step, then
a poll reporting a press of the encoder button together with one negative
encoder step. -/
def armedZeroEvents : List Event :=
  [Event.poll (confirmPress 0), Event.poll (turn 1 1), Event.poll (confirmWithTurn 2 (-1))]

/-- Power-on, a press of the encoder button, then a poll reporting a press of
the stop button together with one positive encoder step. -/
def idleFiveEvents : List Event :=
  [Event.poll (confirmPress 0), Event.poll (cancelWithTurn 1 1)]

/-- The blink invariant: the flag `blinking` is set exactly in
`TIMER_EDITABLE`, and outside `TIMER_EDITABLE` the flag `showDisplay` is
set. -/
def BlinkInv (s : Controller) : Prop :=
  (s.blinking = true ↔ s.state = STATE.TIMER_EDITABLE) ∧
  (s.state ≠ STATE.TIMER_EDITABLE → s.showDisplay = true)

/-- The scheduler invariant: the countdown scheduler is running exactly in
`TIMER_RUNNING`. -/
def TimerInv (s : Controller) : Prop :=
  s.interval.phase = Phase.running ↔ s.state = STATE.TIMER_RUNNING

/-- The 30-second countdown paused after 10 ticks by a press of the stop
button. -/
def paused30 : Controller := checkState (ticks 10 running30) (cancelPress 6)

/-- Then a press of the encoder button: back to `TIMER_EDITABLE`. -/
def editingAgain : Controller := checkState paused30 (confirmPress 6)

/-- Then two encoder steps in the negative direction (exposure time 20), a
press of the encoder button and a press of the start button. -/
def runningAgain : Controller :=
  [turn 7 (-1), turn 8 (-1), confirmPress 8, startPress 8].foldl checkState editingAgain

/-- Three presses of the stop button in `INITIAL`, an excursion to
`TIMER_EDITABLE` and back (encoder button, then stop button), and two more
presses of the stop button. -/
def excursionInputs : List Inputs :=
  [cancelPress 0, cancelPress 0, cancelPress 0, confirmPress 0, cancelPress 0,
   cancelPress 0, cancelPress 0]

/-- The state after `n` polls each reporting no button and one encoder step
in the positive direction (the position one above the recorded one). -/
def turnsUp : Nat → Controller → Controller
  | 0, s => s
  | n + 1, s => turnsUp n (checkState s (turn (s.position + 1) 1))

/-- Power-on, a press of the encoder button, 8000 positive encoder steps
(exposure time 40000), a press of the encoder button and a press of the
start button. -/
def running40000 : Controller :=
  checkState (checkState (turnsUp 8000 editing0) (confirmPress 0)) (startPress 0)

/-- Then 32767 ticks of the countdown cadence. -/
def longRunning : Controller := ticks 32767 running40000

/-- The paused 30-second countdown re-armed unchanged: a press of the encoder
button (`TIMER_EDITABLE`), a second one (`TIMER_SET`, exposure time still
30) and a press of the start button. -/
def rearmed30 : Controller :=
  [confirmPress 6, confirmPress 6, startPress 6].foldl checkState paused30

/-- Then 10 ticks, a press of the stop button and a press of the start
button. -/
def resumedRearmed30 : Controller :=
  [cancelPress 6, startPress 6].foldl checkState (ticks 10 rearmed30)

/-- The paused 30-second countdown re-armed to 5 seconds: from
`editingAgain`, five encoder steps in the negative direction, a press of the
encoder button and a press of the start button. -/
def runningFive : Controller :=
  [turn 7 (-1), turn 8 (-1), turn 9 (-1), turn 10 (-1), turn 11 (-1),
   confirmPress 11, startPress 11].foldl checkState editingAgain

/-! ## Frame lemmas -/

@[simp] theorem setState_state (s : Controller) (n : STATE) : (setState s n).state = n := by
  cases n <;> simp [setState, startTimer, pauseTimer, stopTimer, display, printTime, digitalWriteUvLed]

@[simp] theorem setState_uvLed (s : Controller) (n : STATE) :
    (setState s n).uvLed = decide (n = STATE.TIMER_RUNNING) := by
  cases n <;> simp [setState, startTimer, pauseTimer, stopTimer, display, printTime, digitalWriteUvLed]
    <;> split_ifs <;> simp

@[simp] theorem readEncoder_state (s : Controller) (p d : Int) :
    (readEncoder s p d).state = s.state := by
  unfold readEncoder; split_ifs <;> rfl

@[simp] theorem readEncoder_uvLed (s : Controller) (p d : Int) :
    (readEncoder s p d).uvLed = s.uvLed := by
  unfold readEncoder; split_ifs <;> rfl

@[simp] theorem readEncoder_interval (s : Controller) (p d : Int) :
    (readEncoder s p d).interval = s.interval := by
  unfold readEncoder; split_ifs <;> rfl

@[simp] theorem readEncoder_secretButton (s : Controller) (p d : Int) :
    (readEncoder s p d).secretButton = s.secretButton := by
  unfold readEncoder; split_ifs <;> rfl

theorem relayInv_setState (s : Controller) (n : STATE) : RelayInv (setState s n) := by
  simp [RelayInv]

theorem relayInv_checkState (s : Controller) (i : Inputs) (h : RelayInv s) :
    RelayInv (checkState s i) := by
  unfold checkState
  split <;> (try dsimp only) <;> (try split_ifs) <;> simp_all [RelayInv, handleSecret]

theorem relayInv_step (s : Controller) (e : Event) (h : RelayInv s) : RelayInv (step s e) := by
  cases e with
  | poll i => exact relayInv_checkState s i h
  | blinkTick =>
    simp only [step, blinkUpdate]
    split_ifs <;> simp_all [RelayInv, printTime, display]
  | countdownTick =>
    simp only [step, countdownTick]
    split
    · split_ifs
      · simp [RelayInv, onStop]
      · simpa [RelayInv, onUpdate, printTime] using h
    · exact h
  | naturalStop =>
    simp only [step, naturalStop]
    split
    · simp [RelayInv, onStop]
    · exact h

theorem reachable_run (es : List Event) : ∀ s : Controller, Reachable s → Reachable (run s es) := by
  induction es with
  | nil => intro s hs; exact hs
  | cons e es ih => intro s hs; exact ih (step s e) (Reachable.next s e hs)

/-! ## C1: the relay follows the mode -/

/-- C1: the UV output relay is on exactly when the mode is `TIMER_RUNNING`:
after every call of `setState`, whatever the state before and the target, and
in every state reachable from power-on by polls, blink ticks, countdown ticks
and natural-stop events. -/
theorem relay_on_iff_running :
    (∀ (s : Controller) (n : STATE),
      ((setState s n).uvLed = true ↔ (setState s n).state = STATE.TIMER_RUNNING)) ∧
    (∀ s : Controller, Reachable s → (s.uvLed = true ↔ s.state = STATE.TIMER_RUNNING)) := by
  refine ⟨fun s n => relayInv_setState s n, ?_⟩
  intro s hs
  induction hs with
  | init => simp [powerOn]
  | next s e _ ih => exact relayInv_step s e ih

/-! ## C2: entering `INITIAL` -/

/-- C2: for every prior state, `setState(INITIAL)` ends in mode `INITIAL`
with exposure time 0, the UV output off and the countdown scheduler
stopped. -/
theorem setState_initial_resets (s : Controller) :
    (setState s STATE.INITIAL).state = STATE.INITIAL ∧
    (setState s STATE.INITIAL).exposureTime = 0 ∧
    (setState s STATE.INITIAL).uvLed = false ∧
    (setState s STATE.INITIAL).interval.phase = Phase.stopped := by
  refine ⟨by simp, ?_, by simp, ?_⟩ <;>
    simp [setState, stopTimer, display, printTime, digitalWriteUvLed, IntervalCounter.stop]

/-! ## C4: confirm-press in `TIMER_EDITABLE` -/

/-- C4: in a poll that begins in `TIMER_EDITABLE` with the encoder button
pressed and the stop button not pressed, the mode becomes `INITIAL` when the
exposure time is 0 at the start of the poll and `TIMER_SET` when it is
positive; and no poll that begins in `TIMER_EDITABLE` ends in
`TIMER_RUNNING`, whatever is pressed. -/
theorem editable_confirm_press (s : Controller) (i : Inputs)
    (hmode : s.state = STATE.TIMER_EDITABLE) :
    (i.encoderButton = true → i.stopButton = false →
      (s.exposureTime = 0 → (checkState s i).state = STATE.INITIAL) ∧
      (0 < s.exposureTime → (checkState s i).state = STATE.TIMER_SET)) ∧
    (checkState s i).state ≠ STATE.TIMER_RUNNING := by
  unfold checkState
  rw [hmode]
  dsimp only
  refine ⟨?_, ?_⟩
  · intro hc hs
    refine ⟨?_, ?_⟩
    · intro h0
      simp [hc, hs, h0]
    · intro hpos
      have hne : s.exposureTime ≠ 0 := Nat.pos_iff_ne_zero.mp hpos
      simp [hc, hs, hne]
  · split_ifs <;> simp [hmode]

/-- Instances of C4: confirming 30 seconds arms the timer, confirming 0 seconds
returns to `INITIAL`, and a start press while editing does not start it. -/
theorem editable_confirm_press_witness :
    editing30.state = STATE.TIMER_EDITABLE ∧
    (checkState editing30 (confirmPress 6)).state = STATE.TIMER_SET ∧
    (checkState editing0 (confirmPress 0)).state = STATE.INITIAL ∧
    (checkState editing30 (startPress 6)).state ≠ STATE.TIMER_RUNNING :=
  ⟨by decide,
   ((editable_confirm_press editing30 (confirmPress 6) (by decide)).1 rfl rfl).2 (by decide),
   ((editable_confirm_press editing0 (confirmPress 0) (by decide)).1 rfl rfl).1 (by decide),
   (editable_confirm_press editing30 (startPress 6) (by decide)).2⟩

/-! ## C7, C8: encoder steps -/

theorem usub_five (d : Nat) (h5 : 5 ≤ d) (hd : d < ULONG_MOD) : usub d 5 = d - 5 := by
  unfold usub ULONG_MOD at *
  omega

theorem uadd_lt (a b : Nat) : uadd a b < ULONG_MOD := by
  unfold uadd ULONG_MOD
  omega

theorem readEncoder_exposureTime_lt (s : Controller) (p d : Int)
    (h : s.exposureTime < ULONG_MOD) : (readEncoder s p d).exposureTime < ULONG_MOD := by
  unfold readEncoder
  have h0 : (0 : Nat) < ULONG_MOD := by unfold ULONG_MOD; omega
  split_ifs <;> simp_all [uadd_lt, usub_five]
  omega

theorem readEncoder_down (s : Controller) (p : Int) (hpos : p ≠ s.position)
    (hd : s.exposureTime < ULONG_MOD) :
    (readEncoder s p (-1)).exposureTime = if 5 ≤ s.exposureTime then s.exposureTime - 5 else 0 := by
  unfold readEncoder
  by_cases h5 : 5 ≤ s.exposureTime
  · simp [hpos, h5, usub_five s.exposureTime h5 hd]
  · simp [hpos, h5]

theorem readEncoder_down_le (s : Controller) (p d : Int) (hdir : d = -1)
    (hd : s.exposureTime < ULONG_MOD) : (readEncoder s p d).exposureTime ≤ s.exposureTime := by
  subst hdir
  by_cases hpos : p = s.position
  · simp [readEncoder, hpos]
  · rw [readEncoder_down s p hpos hd]
    split_ifs <;> omega

theorem readEncoders_lt (reads : List (Int × Int)) :
    ∀ s : Controller, s.exposureTime < ULONG_MOD →
      (readEncoders s reads).exposureTime < ULONG_MOD := by
  induction reads with
  | nil => intro s h; exact h
  | cons r rs ih =>
    intro s h
    exact ih (readEncoder s r.1 r.2) (readEncoder_exposureTime_lt s r.1 r.2 h)

theorem readEncoders_down_le (reads : List (Int × Int)) :
    ∀ s : Controller, s.exposureTime < ULONG_MOD → (∀ r ∈ reads, r.2 = -1) →
      (readEncoders s reads).exposureTime ≤ s.exposureTime := by
  induction reads with
  | nil => intro s _ _; exact le_refl _
  | cons r rs ih =>
    intro s h hall
    have h1 := readEncoder_down_le s r.1 r.2 (hall r (List.mem_cons_self r rs)) h
    have h2 := ih (readEncoder s r.1 r.2) (readEncoder_exposureTime_lt s r.1 r.2 h)
      (fun q hq => hall q (List.mem_cons_of_mem r hq))
    exact le_trans h2 h1

/-- C7: an encoder read with a changed position and direction -1 sets the
exposure time `d` to `d - 5` when `d ≥ 5` and to 0 when `d < 5`, so that as
an integer the new value is `max (d - 5) 0`; the value never wraps below
zero: after any sequence of reads in the negative direction it is at most
what it was, and after any sequence of reads at all it is still a
`long unsigned` value. -/
theorem readEncoder_negative_step (s : Controller) (p : Int)
    (hpos : p ≠ s.position) (hd : s.exposureTime < ULONG_MOD) :
    (5 ≤ s.exposureTime → (readEncoder s p (-1)).exposureTime = s.exposureTime - 5) ∧
    (s.exposureTime < 5 → (readEncoder s p (-1)).exposureTime = 0) ∧
    ((readEncoder s p (-1)).exposureTime : Int) = max ((s.exposureTime : Int) - 5) 0 ∧
    (readEncoder s p (-1)).position = p ∧
    (∀ reads : List (Int × Int), (∀ r ∈ reads, r.2 = -1) →
      (readEncoders s reads).exposureTime ≤ s.exposureTime) ∧
    (∀ reads : List (Int × Int), (readEncoders s reads).exposureTime < ULONG_MOD) := by
  have key := readEncoder_down s p hpos hd
  refine ⟨?_, ?_, ?_, ?_, ?_, ?_⟩
  · intro h5
    rw [key, if_pos h5]
  · intro h5
    rw [key, if_neg (by omega)]
  · rw [key]
    split_ifs with h5
    · rw [Nat.cast_sub h5]
      have : (0 : Int) ≤ (s.exposureTime : Int) - 5 := by omega
      simp [max_eq_left this]
    · have : (s.exposureTime : Int) - 5 ≤ 0 := by omega
      simp [max_eq_right this]
  · simp [readEncoder, hpos]
  · intro reads hall
    exact readEncoders_down_le reads s hd hall
  · intro reads
    exact readEncoders_lt reads s hd

/-- Instances of C7: a negative step from 30 gives 25, and from 0 gives 0. -/
theorem readEncoder_negative_step_witness :
    (7 : Int) ≠ editing30.position ∧ editing30.exposureTime < ULONG_MOD ∧
    (readEncoder editing30 7 (-1)).exposureTime = 25 ∧
    ((8 : Int) ≠ editing0.position ∧ (readEncoder editing0 8 (-1)).exposureTime = 0) :=
  ⟨by decide, by decide,
   (readEncoder_negative_step editing30 7 (by decide) (by decide)).1 (by decide),
   by decide,
   (readEncoder_negative_step editing0 8 (by decide) (by decide)).2.1 (by decide)⟩

/-- C8 fails at the top of the range: from exposure time 4294967295 a
positive encoder step stores 4, not 4294967300. -/
theorem readEncoder_positive_step_wraps :
    (1 : Int) ≠ editingMax.position ∧
    editingMax.exposureTime = 4294967295 ∧
    editingMax.exposureTime < ULONG_MOD ∧
    (readEncoder editingMax 1 1).exposureTime = 4 ∧
    (readEncoder editingMax 1 1).exposureTime ≠ editingMax.exposureTime + 5 := by
  decide

/-- C8, amended: an encoder read with a changed position and direction +1
sets the exposure time `d` to `(d + 5) mod 2^32`, which is exactly `d + 5`
whenever `d + 5 < 2^32`. -/
theorem readEncoder_positive_step (s : Controller) (p : Int) (hpos : p ≠ s.position) :
    (readEncoder s p 1).exposureTime = (s.exposureTime + 5) % 4294967296 ∧
    (s.exposureTime + 5 < 4294967296 →
      (readEncoder s p 1).exposureTime = s.exposureTime + 5) ∧
    (readEncoder s p 1).position = p := by
  have key : (readEncoder s p 1).exposureTime = (s.exposureTime + 5) % 4294967296 := by
    simp [readEncoder, hpos, uadd, ULONG_MOD]
  refine ⟨key, ?_, ?_⟩
  · intro hlt
    rw [key, Nat.mod_eq_of_lt hlt]
  · simp [readEncoder, hpos]

/-- Instance of amended C8: a positive step from 30 gives 35. -/
theorem readEncoder_positive_step_witness :
    (7 : Int) ≠ editing30.position ∧ (readEncoder editing30 7 1).exposureTime = 35 :=
  ⟨by decide, (readEncoder_positive_step editing30 7 (by decide)).2.1 (by decide)⟩

/-! ## C9: the secret counter -/

@[simp] theorem setState_secretButton (s : Controller) (n : STATE) :
    (setState s n).secretButton = s.secretButton := by
  cases n <;> simp [setState, startTimer, pauseTimer, stopTimer, display, printTime, digitalWriteUvLed]
    <;> split_ifs <;> simp

theorem toShort_small (z : Int) (h0 : -32768 ≤ z) (h1 : z < 32768) : toShort z = z := by
  unfold toShort
  omega

theorem initial_cancel_counts (s : Controller) (i : Inputs) (hmode : s.state = STATE.INITIAL)
    (hstop : i.stopButton = true) (hconf : i.encoderButton = false)
    (h0 : 0 ≤ s.secretButton) (h4 : s.secretButton < 4) :
    (checkState s i).state = STATE.INITIAL ∧
    (checkState s i).secretButton = s.secretButton + 1 := by
  have hs : toShort (s.secretButton + 1) = s.secretButton + 1 :=
    toShort_small _ (by omega) (by omega)
  have hne : ¬ s.secretButton + 1 = 5 := by omega
  unfold checkState
  rw [hmode]
  simp [hstop, hconf, hs, hne, hmode]

theorem initial_cancel_fifth (s : Controller) (i : Inputs) (hmode : s.state = STATE.INITIAL)
    (hstop : i.stopButton = true) (hconf : i.encoderButton = false)
    (h4 : s.secretButton = 4) :
    (checkState s i).state = STATE.SECRET ∧ (checkState s i).secretButton = 0 := by
  have hs : toShort (s.secretButton + 1) = 5 := by rw [h4]; decide
  unfold checkState
  rw [hmode]
  simp [hstop, hconf, hs]

theorem polls_cancel_below (inputs : List Inputs) :
    ∀ s : Controller, s.state = STATE.INITIAL → 0 ≤ s.secretButton →
      s.secretButton + inputs.length < 5 →
      (∀ i ∈ inputs, i.stopButton = true ∧ i.encoderButton = false) →
      (polls s inputs).state = STATE.INITIAL ∧
      (polls s inputs).secretButton = s.secretButton + inputs.length := by
  induction inputs with
  | nil => intro s hmode _ _ _; simp [polls, hmode]
  | cons i rest ih =>
    intro s hmode h0 hlen hall
    have hi := hall i (List.mem_cons_self i rest)
    simp only [List.length_cons, Nat.cast_add, Nat.cast_one] at hlen
    have hstep := initial_cancel_counts s i hmode hi.1 hi.2 h0 (by omega)
    have hrest := ih (checkState s i) hstep.1 (by rw [hstep.2]; omega)
      (by rw [hstep.2]; omega) (fun j hj => hall j (List.mem_cons_of_mem i hj))
    refine ⟨hrest.1, ?_⟩
    have : polls s (i :: rest) = polls (checkState s i) rest := rfl
    rw [this, hrest.2, hstep.2]
    simp only [List.length_cons, Nat.cast_add, Nat.cast_one]
    omega

theorem polls_cancel_fifth (inputs : List Inputs) :
    ∀ s : Controller, s.state = STATE.INITIAL → 0 ≤ s.secretButton →
      s.secretButton + inputs.length = 5 → inputs ≠ [] →
      (∀ i ∈ inputs, i.stopButton = true ∧ i.encoderButton = false) →
      (polls s inputs).state = STATE.SECRET ∧ (polls s inputs).secretButton = 0 := by
  induction inputs with
  | nil => intro s _ _ _ hne _; exact absurd rfl hne
  | cons i rest ih =>
    intro s hmode h0 hlen _ hall
    have hi := hall i (List.mem_cons_self i rest)
    simp only [List.length_cons, Nat.cast_add, Nat.cast_one] at hlen
    have hunf : polls s (i :: rest) = polls (checkState s i) rest := rfl
    rw [hunf]
    cases rest with
    | nil =>
      simp only [List.length_nil, Nat.cast_zero] at hlen
      exact initial_cancel_fifth s i hmode hi.1 hi.2 (by omega)
    | cons j tl =>
      simp only [List.length_cons, Nat.cast_add, Nat.cast_one] at hlen
      have hstep := initial_cancel_counts s i hmode hi.1 hi.2 h0 (by omega)
      exact ih (checkState s i) hstep.1 (by rw [hstep.2]; omega)
        (by rw [hstep.2]; simp only [List.length_cons, Nat.cast_add, Nat.cast_one]; omega)
        (by simp) (fun k hk => hall k (List.mem_cons_of_mem i hk))

theorem secret_poll_returns (s : Controller) (i : Inputs) (hmode : s.state = STATE.SECRET) :
    (checkState s i).state = STATE.INITIAL ∧ (checkState s i).secretButton = s.secretButton := by
  unfold checkState
  rw [hmode]
  simp [handleSecret, display]

/-- C9: starting in `INITIAL` with the secret counter at 0, a run of polls
each reporting a stop-button press and no encoder-button press leaves the
mode `INITIAL` with the counter equal to the number of presses while there
are fewer than five of them; the fifth sets the mode to `SECRET` and the
counter to 0. The poll that follows returns to `INITIAL` with the counter
still 0, and a further such press then leaves the mode `INITIAL` with
counter 1. -/
theorem secret_after_five_presses (s : Controller) (inputs : List Inputs)
    (hmode : s.state = STATE.INITIAL) (hcount : s.secretButton = 0)
    (hrun : ∀ i ∈ inputs, i.stopButton = true ∧ i.encoderButton = false) :
    (inputs.length < 5 →
      (polls s inputs).state = STATE.INITIAL ∧
      (polls s inputs).secretButton = inputs.length) ∧
    (inputs.length = 5 →
      (polls s inputs).state = STATE.SECRET ∧
      (polls s inputs).secretButton = 0 ∧
      ∀ i j : Inputs,
        (checkState (polls s inputs) i).state = STATE.INITIAL ∧
        (checkState (polls s inputs) i).secretButton = 0 ∧
        (j.stopButton = true → j.encoderButton = false →
          (checkState (checkState (polls s inputs) i) j).state = STATE.INITIAL ∧
          (checkState (checkState (polls s inputs) i) j).secretButton = 1)) := by
  refine ⟨?_, ?_⟩
  · intro hlen
    have h := polls_cancel_below inputs s hmode (by omega) (by omega) hrun
    refine ⟨h.1, ?_⟩
    rw [h.2, hcount]
    simp
  · intro hlen
    have hne : inputs ≠ [] := by
      intro h
      rw [h] at hlen
      simp at hlen
    have h := polls_cancel_fifth inputs s hmode (by omega) (by omega) hne hrun
    refine ⟨h.1, h.2, ?_⟩
    intro i j
    have hback := secret_poll_returns (polls s inputs) i h.1
    rw [h.2] at hback
    refine ⟨hback.1, hback.2, ?_⟩
    intro hj1 hj2
    have hone := initial_cancel_counts (checkState (polls s inputs) i) j hback.1 hj1 hj2
      (by rw [hback.2]) (by rw [hback.2]; decide)
    rw [hback.2] at hone
    simpa using hone

/-- Instances of C9 from power-on: four presses leave `INITIAL`, five give
`SECRET`. -/
theorem secret_after_five_presses_witness :
    (polls powerOn [cancelPress 0, cancelPress 0, cancelPress 0, cancelPress 0]).state
      = STATE.INITIAL ∧
    (polls powerOn [cancelPress 0, cancelPress 0, cancelPress 0, cancelPress 0,
      cancelPress 0]).state = STATE.SECRET :=
  ⟨((secret_after_five_presses powerOn
      [cancelPress 0, cancelPress 0, cancelPress 0, cancelPress 0]
      (by decide) (by decide) (by decide)).1 (by decide)).1,
   ((secret_after_five_presses powerOn
      [cancelPress 0, cancelPress 0, cancelPress 0, cancelPress 0, cancelPress 0]
      (by decide) (by decide) (by decide)).2 (by decide)).1⟩

/-! ## Pause and resume of a countdown started at elapsed count 0 -/

theorem setState_initial_fields (s : Controller) :
    (setState s STATE.INITIAL).exposureTime = 0 ∧
    (setState s STATE.INITIAL).interval.phase = Phase.stopped := by
  constructor <;>
    simp [setState, stopTimer, display, printTime, digitalWriteUvLed, IntervalCounter.stop]

theorem countdownTick_idle (s : Controller) (h : s.interval.phase ≠ Phase.running) :
    countdownTick s = s := by
  unfold countdownTick
  split
  · next hp => exact absurd hp h
  · rfl

theorem completesOnTick_idle (s : Controller) (h : s.interval.phase ≠ Phase.running) :
    completesOnTick s = false := by
  simp [completesOnTick, h]

theorem ticks_idle (n : Nat) (s : Controller) (h : s.interval.phase ≠ Phase.running) :
    ticks n s = s ∧ completions n s = 0 := by
  induction n with
  | zero => exact ⟨rfl, rfl⟩
  | succ n ih =>
    simp only [ticks, completions, countdownTick_idle s h, completesOnTick_idle s h]
    simpa using ih

theorem countdownTick_before (s : Controller) (h : s.interval.phase = Phase.running)
    (hlt : s.interval.count + 1 < s.interval.target) :
    (countdownTick s).state = s.state ∧ (countdownTick s).uvLed = s.uvLed ∧
    (countdownTick s).exposureTime = s.exposureTime ∧
    (countdownTick s).interval.phase = Phase.running ∧
    (countdownTick s).interval.count = s.interval.count + 1 ∧
    (countdownTick s).interval.target = s.interval.target ∧
    completesOnTick s = false := by
  have hn : ¬ s.interval.target ≤ s.interval.count + 1 := by omega
  unfold countdownTick
  rw [h]
  simp [onUpdate, printTime, hn, completesOnTick, h]

theorem countdownTick_last (s : Controller) (h : s.interval.phase = Phase.running)
    (hge : s.interval.target ≤ s.interval.count + 1) :
    (countdownTick s).state = STATE.INITIAL ∧ (countdownTick s).uvLed = false ∧
    (countdownTick s).exposureTime = 0 ∧
    (countdownTick s).interval.phase = Phase.stopped ∧
    completesOnTick s = true := by
  unfold countdownTick
  rw [h]
  simp [onUpdate, onStop, printTime, hge, completesOnTick, h, setState_initial_fields]

theorem ticks_before (n : Nat) :
    ∀ s : Controller, s.interval.phase = Phase.running →
      s.interval.count + n < s.interval.target →
      (ticks n s).state = s.state ∧ (ticks n s).uvLed = s.uvLed ∧
      (ticks n s).exposureTime = s.exposureTime ∧
      (ticks n s).interval.phase = Phase.running ∧
      (ticks n s).interval.count = s.interval.count + n ∧
      (ticks n s).interval.target = s.interval.target ∧
      completions n s = 0 := by
  induction n with
  | zero => intro s h _; simp [ticks, completions, h]
  | succ n ih =>
    intro s h hlt
    obtain ⟨a1, a2, a3, a4, a5, a6, a7⟩ := countdownTick_before s h (by omega)
    obtain ⟨b1, b2, b3, b4, b5, b6, b7⟩ := ih (countdownTick s) a4 (by rw [a5, a6]; omega)
    simp only [ticks, completions, a7]
    refine ⟨by rw [b1, a1], by rw [b2, a2], by rw [b3, a3], b4, by rw [b5, a5]; omega,
      by rw [b6, a6], by simp [b7]⟩

theorem ticks_add (m n : Nat) : ∀ s : Controller, ticks (m + n) s = ticks n (ticks m s) := by
  induction m with
  | zero => intro s; simp [ticks]
  | succ m ih =>
    intro s
    have : m + 1 + n = (m + n) + 1 := by omega
    rw [this]
    simp only [ticks]
    exact ih (countdownTick s)

theorem completions_add (m n : Nat) :
    ∀ s : Controller, completions (m + n) s = completions m s + completions n (ticks m s) := by
  induction m with
  | zero => intro s; simp [ticks, completions]
  | succ m ih =>
    intro s
    have : m + 1 + n = (m + n) + 1 := by omega
    rw [this]
    simp only [ticks, completions]
    rw [ih (countdownTick s)]
    omega

theorem running_stop_press (s : Controller) (i : Inputs) (hmode : s.state = STATE.TIMER_RUNNING)
    (hstop : i.stopButton = true) :
    (checkState s i).state = STATE.TIMER_PAUSED ∧ (checkState s i).uvLed = false ∧
    (checkState s i).exposureTime = s.exposureTime ∧
    (checkState s i).interval = s.interval.pause := by
  unfold checkState
  rw [hmode]
  simp [hstop, setState, hmode, pauseTimer, digitalWriteUvLed]

theorem paused_start_press (s : Controller) (i : Inputs) (hmode : s.state = STATE.TIMER_PAUSED)
    (hstart : i.startButton = true) (hstop : i.stopButton = false) :
    (checkState s i).state = STATE.TIMER_RUNNING ∧ (checkState s i).uvLed = true ∧
    (checkState s i).exposureTime = s.exposureTime ∧
    (checkState s i).interval = s.interval.startForCount s.exposureTime := by
  unfold checkState
  rw [hmode]
  cases hc : i.encoderButton <;>
    simp [hstart, hstop, setState, hmode, startTimer, digitalWriteUvLed, printTime]

/-- Pause and resume of a countdown that started with elapsed count 0 (the
scheduler was stopped at the start press). Let a countdown of
`D` ticks be running with elapsed count 0. After `k` ticks (`k < D`), a
poll with a stop-button press gives `TIMER_PAUSED` with elapsed count `k`,
and no tick is counted while paused; a following poll with a start-button
press (and no stop-button press) gives `TIMER_RUNNING` with the relay on and
the elapsed count still `k`. From there no completion is signalled during
the first `D - k - 1` ticks, the tick number `D - k` is the one that signals
natural completion, at elapsed count `D`, and leaves the mode `INITIAL` with
the relay off; over any longer run of ticks completion is signalled exactly
once. -/
theorem pause_resume_keeps_elapsed (s : Controller) (D k : Nat) (i1 i2 : Inputs)
    (hmode : s.state = STATE.TIMER_RUNNING)
    (hphase : s.interval.phase = Phase.running)
    (hcount : s.interval.count = 0)
    (htarget : s.interval.target = D)
    (hexp : s.exposureTime = D)
    (hkD : k < D)
    (hstop : i1.stopButton = true)
    (hstart : i2.startButton = true) (hnostop : i2.stopButton = false) :
    (checkState (ticks k s) i1).state = STATE.TIMER_PAUSED ∧
    (checkState (ticks k s) i1).interval.count = k ∧
    (∀ m : Nat, ticks m (checkState (ticks k s) i1) = checkState (ticks k s) i1) ∧
    (checkState (checkState (ticks k s) i1) i2).state = STATE.TIMER_RUNNING ∧
    (checkState (checkState (ticks k s) i1) i2).uvLed = true ∧
    (checkState (checkState (ticks k s) i1) i2).interval.count = k ∧
    (∀ j : Nat, j < D - k →
      (ticks j (checkState (checkState (ticks k s) i1) i2)).state = STATE.TIMER_RUNNING ∧
      (ticks j (checkState (checkState (ticks k s) i1) i2)).uvLed = true ∧
      (ticks j (checkState (checkState (ticks k s) i1) i2)).interval.count = k + j ∧
      completions j (checkState (checkState (ticks k s) i1) i2) = 0) ∧
    completesOnTick (ticks (D - k - 1) (checkState (checkState (ticks k s) i1) i2)) = true ∧
    (ticks (D - k - 1) (checkState (checkState (ticks k s) i1) i2)).interval.count + 1 = D ∧
    (ticks (D - k) (checkState (checkState (ticks k s) i1) i2)).state = STATE.INITIAL ∧
    (ticks (D - k) (checkState (checkState (ticks k s) i1) i2)).uvLed = false ∧
    (∀ m : Nat, D - k ≤ m →
      completions m (checkState (checkState (ticks k s) i1) i2) = 1) := by
  -- the first `k` ticks
  obtain ⟨a1, _, a3, a4, a5, a6, _⟩ := ticks_before k s hphase (by omega)
  -- the pause
  obtain ⟨p1, _, p3, p4⟩ := running_stop_press (ticks k s) i1 (by rw [a1, hmode]) hstop
  have pint : (checkState (ticks k s) i1).interval =
      { phase := Phase.paused, count := k, target := D } := by
    rw [p4]
    simp only [IntervalCounter.pause, a4]
    rw [a5, a6, hcount, htarget]
    simp
  -- the resume
  obtain ⟨r1, r2, r3, r4⟩ := paused_start_press (checkState (ticks k s) i1) i2 p1 hstart hnostop
  have rint : (checkState (checkState (ticks k s) i1) i2).interval =
      { phase := Phase.running, count := k, target := D } := by
    rw [r4, pint, p3, a3, hexp]
    rfl
  generalize checkState (checkState (ticks k s) i1) i2 = r at r1 r2 r3 r4 rint
  have hbefore : ∀ j : Nat, j < D - k →
      (ticks j r).state = STATE.TIMER_RUNNING ∧ (ticks j r).uvLed = true ∧
      (ticks j r).interval.phase = Phase.running ∧
      (ticks j r).interval.count = k + j ∧ (ticks j r).interval.target = D ∧
      completions j r = 0 := by
    intro j hj
    obtain ⟨b1, b2, _, b4, b5, b6, b7⟩ :=
      ticks_before j r (by rw [rint]) (by rw [rint]; simp only; omega)
    refine ⟨by rw [b1, r1], by rw [b2, r2], b4, by rw [b5, rint], by rw [b6, rint], b7⟩
  obtain ⟨l1, l2, l3, l4, l5, l6⟩ := hbefore (D - k - 1) (by omega)
  obtain ⟨e1, e2, _, e4, e5⟩ :=
    countdownTick_last (ticks (D - k - 1) r) l3 (by rw [l4, l5]; omega)
  have hsplit : D - k = (D - k - 1) + 1 := by omega
  have hlast : ticks (D - k) r = countdownTick (ticks (D - k - 1) r) := by
    rw [hsplit, ticks_add]
    simp [ticks]
  have hcomp : completions (D - k) r = 1 := by
    rw [hsplit, completions_add, l6]
    simp [completions, e5]
  refine ⟨p1, by rw [pint], ?_, r1, r2, by rw [rint], ?_, e5, by rw [l4]; omega,
    by rw [hlast, e1], by rw [hlast, e2], ?_⟩
  · intro m
    exact (ticks_idle m _ (by rw [pint]; simp)).1
  · intro j hj
    obtain ⟨c1, c2, _, c4, _, c6⟩ := hbefore j hj
    exact ⟨c1, c2, c4, c6⟩
  · intro m hm
    obtain ⟨d, rfl⟩ := Nat.exists_eq_add_of_le hm
    rw [completions_add, hcomp]
    have := (ticks_idle d (ticks (D - k) r) (by rw [hlast, e4]; simp)).2
    omega

/-- Instance with `D = 30` and `k = 10` in the countdown started from
power-on: after the resume the mode is still `TIMER_RUNNING` after 19 ticks
and `INITIAL` after 20, and completion is signalled once. -/
theorem pause_resume_keeps_elapsed_witness :
    running30.state = STATE.TIMER_RUNNING ∧ running30.exposureTime = 30 ∧
    (ticks 19 (checkState (checkState (ticks 10 running30) (cancelPress 6))
      (startPress 6))).state = STATE.TIMER_RUNNING ∧
    (ticks (30 - 10) (checkState (checkState (ticks 10 running30) (cancelPress 6))
      (startPress 6))).state = STATE.INITIAL ∧
    completions 25 (checkState (checkState (ticks 10 running30) (cancelPress 6))
      (startPress 6)) = 1 :=
  ⟨by decide, by decide,
   ((pause_resume_keeps_elapsed running30 30 10 (cancelPress 6) (startPress 6)
      (by decide) (by decide) (by decide) (by decide) (by decide) (by decide)
      rfl rfl rfl).2.2.2.2.2.2.1 19 (by decide)).1,
   (pause_resume_keeps_elapsed running30 30 10 (cancelPress 6) (startPress 6)
      (by decide) (by decide) (by decide) (by decide) (by decide) (by decide)
      rfl rfl rfl).2.2.2.2.2.2.2.2.2.1,
   (pause_resume_keeps_elapsed running30 30 10 (cancelPress 6) (startPress 6)
      (by decide) (by decide) (by decide) (by decide) (by decide) (by decide)
      rfl rfl rfl).2.2.2.2.2.2.2.2.2.2.2 25 (by decide)⟩

/-! ## C10: the example scenario -/

/-- C10: the example scenario. Power-on is `INITIAL` with exposure time 0 and
the relay off; a press of the encoder button gives `TIMER_EDITABLE`; six
polls each reporting a positive encoder step give exposure time 30; a press
of the encoder button gives `TIMER_SET`; a press of the start button gives
`TIMER_RUNNING` with the relay on; during the first 29 countdown ticks the
mode stays `TIMER_RUNNING` with the relay on and no completion is signalled;
the 30th tick signals natural completion and leaves mode `INITIAL`, exposure
time 0 and the relay off. -/
theorem exposure_scenario :
    (powerOn.state = STATE.INITIAL ∧ powerOn.exposureTime = 0 ∧ powerOn.uvLed = false) ∧
    (editing0.state = STATE.TIMER_EDITABLE ∧ editing0.exposureTime = 0) ∧
    (editing30.state = STATE.TIMER_EDITABLE ∧ editing30.exposureTime = 30) ∧
    (armed30.state = STATE.TIMER_SET ∧ armed30.exposureTime = 30 ∧ armed30.uvLed = false) ∧
    (running30.state = STATE.TIMER_RUNNING ∧ running30.uvLed = true ∧
      running30.exposureTime = 30) ∧
    (∀ n : Nat, n < 30 →
      (ticks n running30).state = STATE.TIMER_RUNNING ∧ (ticks n running30).uvLed = true ∧
      completions n running30 = 0) ∧
    (completions 30 running30 = 1 ∧
      (ticks 30 running30).state = STATE.INITIAL ∧
      (ticks 30 running30).exposureTime = 0 ∧
      (ticks 30 running30).uvLed = false) := by
  refine ⟨by decide, by decide, by decide, by decide, by decide, ?_, by decide⟩
  intro n hn
  obtain ⟨h1, h2, _, _, _, _, h7⟩ :=
    ticks_before n running30 (by decide) (by
      have hc : running30.interval.count = 0 := by decide
      have ht : running30.interval.target = 30 := by decide
      rw [hc, ht]
      omega)
  have hs : running30.state = STATE.TIMER_RUNNING := by decide
  have hu : running30.uvLed = true := by decide
  exact ⟨by rw [h1, hs], by rw [h2, hu], h7⟩

/-! ## C5, C6: an encoder step in the poll that leaves `TIMER_EDITABLE` -/

/-- C5 does not hold of the code: `checkState` calls `readEncoder` after the
button handling of the `TIMER_EDITABLE` case, so an encoder step reported in
the same poll as the confirming press is applied after the mode has become
`TIMER_SET`. From exposure time 5, a press together with a negative step
leaves `TIMER_SET` with exposure time 0, and a start press then enters
`TIMER_RUNNING` with exposure time 0 and the relay on. -/
theorem armed_with_zero_exposure :
    Reachable (run powerOn armedZeroEvents) ∧
    (run powerOn (armedZeroEvents.take 2)).state = STATE.TIMER_EDITABLE ∧
    (run powerOn (armedZeroEvents.take 2)).exposureTime = 5 ∧
    (run powerOn armedZeroEvents).state = STATE.TIMER_SET ∧
    (run powerOn armedZeroEvents).exposureTime = 0 ∧
    (checkState (run powerOn armedZeroEvents) (startPress 2)).state = STATE.TIMER_RUNNING ∧
    (checkState (run powerOn armedZeroEvents) (startPress 2)).exposureTime = 0 ∧
    (checkState (run powerOn armedZeroEvents) (startPress 2)).uvLed = true :=
  ⟨reachable_run armedZeroEvents powerOn Reachable.init,
   by decide, by decide, by decide, by decide, by decide, by decide, by decide⟩

/-- C6 does not hold of the code: for the same reason an encoder step
reported in the same poll as the stop-button press that leaves
`TIMER_EDITABLE` is applied after `setState(INITIAL)` has reset the exposure
time and rendered 00:00. The poll ends in `INITIAL` with exposure time 5. -/
theorem idle_with_nonzero_exposure :
    Reachable (run powerOn idleFiveEvents) ∧
    (run powerOn (idleFiveEvents.take 1)).state = STATE.TIMER_EDITABLE ∧
    (run powerOn (idleFiveEvents.take 1)).exposureTime = 0 ∧
    (run powerOn idleFiveEvents).state = STATE.INITIAL ∧
    (run powerOn idleFiveEvents).exposureTime = 5 ∧
    (run powerOn idleFiveEvents).out.take 2 = [Effect.snake 1, Effect.printTime 0 0] :=
  ⟨reachable_run idleFiveEvents powerOn Reachable.init,
   by decide, by decide, by decide, by decide, by decide⟩

/-! ## C11: minutes and seconds -/

/-- C11: for every `totalSeconds`, `getMinutes` is `(totalSeconds mod 3600) / 60`
and `getSeconds` is `totalSeconds mod 60`; both are below 60 and
`60 * getMinutes + getSeconds = totalSeconds mod 3600`, so the time given to
the display by `printTime` is the duration itself below 3600 and repeats
with period 3600. -/
theorem minutes_seconds_split (t : Nat) (s : Controller) :
    getMinutes t = (t % 3600) / 60 ∧
    getSeconds t = t % 60 ∧
    getMinutes t < 60 ∧
    getSeconds t < 60 ∧
    60 * getMinutes t + getSeconds t = t % 3600 ∧
    (t < 3600 → 60 * getMinutes t + getSeconds t = t) ∧
    (getMinutes (t + 3600) = getMinutes t ∧ getSeconds (t + 3600) = getSeconds t) ∧
    (printTime s t).out = Effect.printTime ((t % 3600) / 60) (t % 60) :: s.out := by
  unfold getMinutes getSeconds
  refine ⟨rfl, rfl, by omega, by omega, by omega, ?_, ⟨by omega, by omega⟩, ?_⟩
  · intro h
    omega
  · simp [printTime, getMinutes, getSeconds]

/-! ## C17: redundant encoder reads -/

/-- C17: an encoder read whose position equals the recorded one leaves the
whole state unchanged, whatever the direction; and a read with a changed
position and direction 0 (or any direction other than -1 and +1) leaves the
exposure time unchanged and only records the new position. -/
theorem readEncoder_redundant (s : Controller) (p d : Int) :
    readEncoder s s.position d = s ∧
    (readEncoder s s.position d).exposureTime = s.exposureTime ∧
    (readEncoder s s.position d).position = s.position ∧
    (readEncoder s p 0).exposureTime = s.exposureTime ∧
    (readEncoder s p 0).position = p ∧
    (d ≠ -1 → d ≠ 1 → (readEncoder s p d).exposureTime = s.exposureTime) := by
  have hsame : readEncoder s s.position d = s := by simp [readEncoder]
  refine ⟨hsame, by rw [hsame], by rw [hsame], ?_, ?_, ?_⟩
  · unfold readEncoder
    split_ifs <;> simp_all
  · unfold readEncoder
    split_ifs <;> simp_all
  · intro h1 h2
    unfold readEncoder
    split_ifs <;> simp_all

/-! ## C12: natural completion -/

theorem onStop_fields (s : Controller) :
    (onStop s).state = STATE.INITIAL ∧ (onStop s).exposureTime = 0 ∧
    (onStop s).uvLed = false ∧ (onStop s).interval.phase = Phase.stopped := by
  simp [onStop, setState_initial_fields]

/-- C12: when the running countdown scheduler signals natural completion,
whatever the exposure time and the elapsed count (and whatever the mode, so
in particular in `TIMER_RUNNING`), the on-stop callback leaves exposure time
0, the relay off, the mode `INITIAL` (and the scheduler stopped); this is
what a natural-stop event does, and what the tick that reaches the target
count does. -/
theorem natural_stop_resets (s : Controller) (hphase : s.interval.phase = Phase.running) :
    ((onStop s).exposureTime = 0 ∧ (onStop s).uvLed = false ∧
      (onStop s).state = STATE.INITIAL ∧ (onStop s).interval.phase = Phase.stopped) ∧
    naturalStop s = onStop s ∧
    (s.interval.target ≤ s.interval.count + 1 →
      (countdownTick s).exposureTime = 0 ∧ (countdownTick s).uvLed = false ∧
      (countdownTick s).state = STATE.INITIAL) := by
  obtain ⟨h1, h2, h3, h4⟩ := onStop_fields s
  refine ⟨⟨h2, h3, h1, h4⟩, ?_, ?_⟩
  · simp [naturalStop, hphase]
  · intro hge
    obtain ⟨c1, c2, c3, _, _⟩ := countdownTick_last s hphase hge
    exact ⟨c3, c2, c1⟩

/-- Instance of C12: a natural stop during the 30-second countdown, after 12
ticks, returns to `INITIAL` with exposure time 0 and the relay off. -/
theorem natural_stop_resets_witness :
    (ticks 12 running30).state = STATE.TIMER_RUNNING ∧
    (ticks 12 running30).exposureTime = 30 ∧
    (naturalStop (ticks 12 running30)).state = STATE.INITIAL ∧
    (naturalStop (ticks 12 running30)).exposureTime = 0 ∧
    (naturalStop (ticks 12 running30)).uvLed = false :=
  ⟨by decide, by decide,
   by
    have h := natural_stop_resets (ticks 12 running30) (by decide)
    rw [h.2.1]
    exact h.1.2.2.1,
   by decide, by decide⟩

/-! ## Invariants of the blink flags and of the scheduler -/

theorem setState_blinking (s : Controller) (n : STATE) :
    (setState s n).blinking =
      if n = STATE.TIMER_EDITABLE then true
      else if s.state = STATE.TIMER_EDITABLE then false else s.blinking := by
  cases n <;> by_cases hs : s.state = STATE.TIMER_EDITABLE <;>
    simp [setState, startTimer, pauseTimer, stopTimer, display, printTime, digitalWriteUvLed, hs]

theorem setState_showDisplay (s : Controller) (n : STATE) :
    (setState s n).showDisplay =
      if s.state = STATE.TIMER_EDITABLE then true else s.showDisplay := by
  cases n <;> by_cases hs : s.state = STATE.TIMER_EDITABLE <;>
    simp [setState, startTimer, pauseTimer, stopTimer, display, printTime, digitalWriteUvLed, hs]

theorem setState_interval (s : Controller) (n : STATE) :
    (setState s n).interval =
      match n with
      | .INITIAL => s.interval.stop
      | .TIMER_RUNNING => s.interval.startForCount s.exposureTime
      | .TIMER_PAUSED => s.interval.pause
      | _ => s.interval := by
  cases n <;> simp [setState, startTimer, pauseTimer, stopTimer, display, printTime, digitalWriteUvLed]
    <;> split_ifs <;> simp

theorem blinkInv_setState (s : Controller) (n : STATE) (h : BlinkInv s) :
    BlinkInv (setState s n) := by
  obtain ⟨h1, h2⟩ := h
  refine ⟨?_, ?_⟩
  · rw [setState_blinking, setState_state]
    by_cases hn : n = STATE.TIMER_EDITABLE
    · simp [hn]
    · by_cases hs : s.state = STATE.TIMER_EDITABLE
      · simp [hn, hs]
      · simp only [hn, hs, if_false]
        rw [h1]
        simp [hs]
  · intro _
    rw [setState_showDisplay]
    by_cases hs : s.state = STATE.TIMER_EDITABLE
    · simp [hs]
    · simp only [hs, if_false]
      exact h2 hs

theorem readEncoder_blinking (s : Controller) (p d : Int) :
    (readEncoder s p d).blinking = s.blinking := by
  unfold readEncoder; split_ifs <;> rfl

theorem readEncoder_showDisplay (s : Controller) (p d : Int) :
    (readEncoder s p d).showDisplay = s.showDisplay := by
  unfold readEncoder; split_ifs <;> rfl

theorem blinkInv_readEncoder (s : Controller) (p d : Int) (h : BlinkInv s) :
    BlinkInv (readEncoder s p d) := by
  unfold BlinkInv at *
  rw [readEncoder_blinking, readEncoder_showDisplay, readEncoder_state]
  exact h

theorem blinkInv_secretButton (s : Controller) (z : Int) (h : BlinkInv s) :
    BlinkInv { s with secretButton := z } := h

theorem blinkInv_checkState (s : Controller) (i : Inputs) (h : BlinkInv s) :
    BlinkInv (checkState s i) := by
  unfold checkState
  split
  · exact blinkInv_setState _ _ h
  · dsimp only
    split_ifs <;>
      first
        | exact h
        | exact blinkInv_setState _ _ h
        | exact blinkInv_setState _ _ (blinkInv_secretButton _ _ h)
        | exact blinkInv_setState _ _ (blinkInv_secretButton _ _ (blinkInv_setState _ _ h))
  · dsimp only
    apply blinkInv_readEncoder
    split_ifs <;>
      first
        | exact h
        | exact blinkInv_setState _ _ h
        | exact blinkInv_setState _ _ (blinkInv_setState _ _ h)
  · dsimp only
    split_ifs <;>
      first
        | exact h
        | exact blinkInv_setState _ _ h
        | exact blinkInv_setState _ _ (blinkInv_setState _ _ h)
        | exact blinkInv_setState _ _ (blinkInv_setState _ _ (blinkInv_setState _ _ h))
  · split_ifs
    · exact blinkInv_setState _ _ h
    · exact h
  · dsimp only
    split_ifs <;>
      first
        | exact h
        | exact blinkInv_setState _ _ h
        | exact blinkInv_setState _ _ (blinkInv_setState _ _ h)
        | exact blinkInv_setState _ _ (blinkInv_setState _ _ (blinkInv_setState _ _ h))
  · exact blinkInv_setState _ _ h

theorem stop_phase (t : IntervalCounter) : t.stop.phase = Phase.stopped := rfl

theorem startForCount_phase (t : IntervalCounter) (n : Nat) :
    (t.startForCount n).phase = Phase.running := by
  unfold IntervalCounter.startForCount
  split <;> rfl

theorem pause_phase (t : IntervalCounter) : ¬ t.pause.phase = Phase.running := by
  unfold IntervalCounter.pause
  split
  · simp
  · next h => exact fun hp => h hp

theorem timerInv_setState (s : Controller) (n : STATE) (h : TimerInv s)
    (hn : n = STATE.INITIAL ∨ n = STATE.TIMER_RUNNING ∨ n = STATE.TIMER_PAUSED ∨
      s.state ≠ STATE.TIMER_RUNNING) :
    TimerInv (setState s n) := by
  unfold TimerInv at *
  rw [setState_interval, setState_state]
  cases n <;> simp [stop_phase, startForCount_phase, pause_phase] <;> simp_all

theorem timerInv_checkState (s : Controller) (i : Inputs) (h : TimerInv s) :
    TimerInv (checkState s i) := by
  unfold checkState
  split <;> (try dsimp only) <;> (try split_ifs) <;>
    simp_all [TimerInv, setState_interval, handleSecret, display, stop_phase,
      startForCount_phase, pause_phase]

theorem blinkInv_step (s : Controller) (e : Event) (h : BlinkInv s) : BlinkInv (step s e) := by
  cases e with
  | poll i => exact blinkInv_checkState s i h
  | blinkTick =>
    obtain ⟨h1, h2⟩ := h
    simp only [step, blinkUpdate]
    split_ifs with hb hd
    · exact ⟨by simpa [printTime] using h1, by intro hne; simpa [printTime] using hd⟩
    · refine ⟨by simpa [display] using h1, ?_⟩
      intro hne
      exact absurd (h1.mp hb) (by simpa [display] using hne)
    · exact ⟨h1, h2⟩
  | countdownTick =>
    simp only [step, countdownTick]
    split
    · split_ifs
      · exact blinkInv_setState _ _ h
      · exact h
    · exact h
  | naturalStop =>
    simp only [step, naturalStop]
    split
    · exact blinkInv_setState _ _ h
    · exact h

theorem timerInv_step (s : Controller) (e : Event) (h : TimerInv s) : TimerInv (step s e) := by
  cases e with
  | poll i => exact timerInv_checkState s i h
  | blinkTick =>
    simp only [step, blinkUpdate]
    split_ifs <;> simpa [TimerInv, printTime, display] using h
  | countdownTick =>
    simp only [step, countdownTick]
    split
    · next hp =>
      split_ifs
      · simp [TimerInv, onStop, setState_interval, stop_phase]
      · simpa [TimerInv, onUpdate, printTime, hp] using h
    · exact h
  | naturalStop =>
    simp only [step, naturalStop]
    split
    · simp [TimerInv, onStop, setState_interval, stop_phase]
    · exact h

theorem reachable_invariants (s : Controller) (hs : Reachable s) : BlinkInv s ∧ TimerInv s := by
  induction hs with
  | init => exact ⟨by simp [BlinkInv, powerOn], by simp [TimerInv, powerOn]⟩
  | next s e _ ih => exact ⟨blinkInv_step s e ih.1, timerInv_step s e ih.2⟩

/-! ## C13, C14: the blink flags -/

theorem setState_out_from_editable (s : Controller) (n : STATE)
    (hmode : s.state = STATE.TIMER_EDITABLE) :
    (setState s n).out =
      (if n = STATE.INITIAL then [Effect.snake 1, Effect.printTime 0 0] else []) ++
        Effect.printTime (getMinutes s.exposureTime) (getSeconds s.exposureTime) :: s.out := by
  cases n <;>
    simp [setState, startTimer, pauseTimer, stopTimer, display, printTime, digitalWriteUvLed,
      hmode, getMinutes, getSeconds]

/-- C13: every call of `setState` made while the mode is `TIMER_EDITABLE`
ends with `showDisplay` set and has rendered the current exposure time
(before the rendering of 00:00 and the animation when the target is
`INITIAL`); and in every reachable state whose mode is not `TIMER_EDITABLE`
the flag `showDisplay` is set. -/
theorem leaving_editable_shows_display :
    (∀ (s : Controller) (n : STATE), s.state = STATE.TIMER_EDITABLE →
      (setState s n).showDisplay = true ∧
      (setState s n).out =
        (if n = STATE.INITIAL then [Effect.snake 1, Effect.printTime 0 0] else []) ++
          Effect.printTime (getMinutes s.exposureTime) (getSeconds s.exposureTime) :: s.out) ∧
    (∀ s : Controller, Reachable s → s.state ≠ STATE.TIMER_EDITABLE →
      s.showDisplay = true) := by
  refine ⟨?_, ?_⟩
  · intro s n hmode
    refine ⟨?_, setState_out_from_editable s n hmode⟩
    rw [setState_showDisplay]
    simp [hmode]
  · intro s hs hne
    exact (reachable_invariants s hs).1.2 hne

/-- C14: in every reachable state the flag `blinking` is set exactly when the
mode is `TIMER_EDITABLE`. A blink tick outside `TIMER_EDITABLE` changes
nothing; in `TIMER_EDITABLE` it negates `showDisplay` (and changes neither
mode nor exposure time), rendering the current exposure time if the flag
became set and clearing the display if it became unset. -/
theorem blink_tick_effect :
    (∀ s : Controller, Reachable s → (s.blinking = true ↔ s.state = STATE.TIMER_EDITABLE)) ∧
    (∀ s : Controller, Reachable s → s.state ≠ STATE.TIMER_EDITABLE → blinkUpdate s = s) ∧
    (∀ s : Controller, Reachable s → s.state = STATE.TIMER_EDITABLE →
      (blinkUpdate s).showDisplay = (!s.showDisplay) ∧
      (blinkUpdate s).state = s.state ∧
      (blinkUpdate s).exposureTime = s.exposureTime ∧
      ((blinkUpdate s).showDisplay = true →
        (blinkUpdate s).out =
          Effect.printTime (getMinutes s.exposureTime) (getSeconds s.exposureTime) :: s.out) ∧
      ((blinkUpdate s).showDisplay = false →
        (blinkUpdate s).out = Effect.clear :: s.out)) := by
  refine ⟨?_, ?_, ?_⟩
  · intro s hs
    exact (reachable_invariants s hs).1.1
  · intro s hs hne
    have hb : ¬ s.blinking = true := fun h => hne ((reachable_invariants s hs).1.1.mp h)
    simp [blinkUpdate, hb]
  · intro s hs hmode
    have hb : s.blinking = true := (reachable_invariants s hs).1.1.mpr hmode
    cases hd : s.showDisplay <;> simp [blinkUpdate, hb, hd, printTime, display]

/-! ## C15, C16, C20: the scheduler and the mode -/

theorem reachable_checkState (s : Controller) (i : Inputs) (h : Reachable s) :
    Reachable (checkState s i) :=
  Reachable.next s (Event.poll i) h

theorem reachable_polls (inputs : List Inputs) :
    ∀ s : Controller, Reachable s → Reachable (inputs.foldl checkState s) := by
  induction inputs with
  | nil => intro s hs; exact hs
  | cons i rest ih => intro s hs; exact ih (checkState s i) (reachable_checkState s i hs)

theorem reachable_ticks (n : Nat) : ∀ s : Controller, Reachable s → Reachable (ticks n s) := by
  induction n with
  | zero => intro s hs; exact hs
  | succ n ih => intro s hs; exact ih (countdownTick s) (Reachable.next s Event.countdownTick hs)

theorem reachable_running30 : Reachable running30 :=
  reachable_checkState _ _ (reachable_checkState _ _
    (reachable_polls _ _ (reachable_checkState _ _ Reachable.init)))

theorem reachable_editingAgain : Reachable editingAgain :=
  reachable_checkState _ _ (reachable_checkState _ _ (reachable_ticks 10 _ reachable_running30))

/-- C15 does not hold of the code: `setState` stops the countdown scheduler
on entry to `INITIAL` only, so the transition `TIMER_PAUSED` to
`TIMER_EDITABLE` leaves it paused, not stopped, with its elapsed count of
10. The start that follows is then, for the scheduler, a resume: re-armed to
20 seconds the countdown starts at elapsed count 10 and completes after 10
ticks; re-armed to 5 seconds it starts at elapsed count 10, its first tick
renders 28:10 (the unsigned value of 5 - 11) and completes it. -/
theorem paused_to_editable_not_stopped :
    Reachable editingAgain ∧
    paused30.state = STATE.TIMER_PAUSED ∧
    editingAgain.state = STATE.TIMER_EDITABLE ∧
    editingAgain.interval.phase = Phase.paused ∧
    editingAgain.interval.phase ≠ Phase.stopped ∧
    editingAgain.interval.count = 10 ∧
    (runningAgain.state = STATE.TIMER_RUNNING ∧ runningAgain.exposureTime = 20 ∧
      runningAgain.interval.count = 10 ∧
      (ticks 10 runningAgain).state = STATE.INITIAL) ∧
    (runningFive.state = STATE.TIMER_RUNNING ∧ runningFive.exposureTime = 5 ∧
      runningFive.interval.count = 10 ∧
      (countdownTick runningFive).state = STATE.INITIAL ∧
      (countdownTick runningFive).out.take 3 =
        [Effect.snake 1, Effect.printTime 0 0, Effect.printTime 28 10]) :=
  ⟨reachable_editingAgain, by decide, by decide, by decide, by decide, by decide, by decide,
   by decide⟩

/-- What does hold of the scheduler outside `TIMER_RUNNING`: every transition
into `INITIAL` from `TIMER_PAUSED` (stop press) or by the on-stop callback
leaves the countdown scheduler stopped; and in every reachable state whose
mode is not `TIMER_RUNNING` the scheduler is not running, so a countdown
tick or a natural-stop event there delivers no callback and changes
nothing. -/
theorem no_tick_outside_running :
    (∀ (s : Controller) (i : Inputs), s.state = STATE.TIMER_PAUSED → i.stopButton = true →
      (checkState s i).state = STATE.INITIAL ∧
      (checkState s i).interval.phase = Phase.stopped) ∧
    (∀ s : Controller,
      (onStop s).state = STATE.INITIAL ∧ (onStop s).interval.phase = Phase.stopped) ∧
    (∀ s : Controller, Reachable s → s.state ≠ STATE.TIMER_RUNNING →
      s.interval.phase ≠ Phase.running ∧ countdownTick s = s ∧ naturalStop s = s ∧
      completesOnTick s = false) := by
  refine ⟨?_, ?_, ?_⟩
  · intro s i hmode hstop
    unfold checkState
    rw [hmode]
    simp [hstop, setState_interval, stop_phase]
  · intro s
    exact ⟨(onStop_fields s).1, (onStop_fields s).2.2.2⟩
  · intro s hs hne
    have hp : s.interval.phase ≠ Phase.running :=
      fun h => hne ((reachable_invariants s hs).2.mp h)
    refine ⟨hp, countdownTick_idle s hp, ?_, completesOnTick_idle s hp⟩
    unfold naturalStop
    split
    · next h => exact absurd h hp
    · rfl

theorem pause_of_running (t : IntervalCounter) (h : t.phase = Phase.running) :
    t.pause.phase = Phase.paused ∧ t.pause.count = t.count ∧ t.pause.target = t.target := by
  unfold IntervalCounter.pause
  rw [h]
  simp

/-- C16: a poll that begins in `TIMER_RUNNING` and reports a stop-button
press ends in `TIMER_PAUSED` with the relay off, the exposure time unchanged
and `pause()` applied to the countdown scheduler, which in a reachable state
leaves it paused with its elapsed count kept; a poll that reports no
stop-button press changes nothing at all. The result depends on the stop
button only: the encoder button, the start button and the encoder reading
have no effect. -/
theorem running_poll (s : Controller) (i : Inputs) (hmode : s.state = STATE.TIMER_RUNNING) :
    (i.stopButton = true →
      (checkState s i).state = STATE.TIMER_PAUSED ∧
      (checkState s i).uvLed = false ∧
      (checkState s i).exposureTime = s.exposureTime ∧
      (checkState s i).interval = s.interval.pause ∧
      (Reachable s →
        (checkState s i).interval.phase = Phase.paused ∧
        (checkState s i).interval.count = s.interval.count)) ∧
    (i.stopButton = false → checkState s i = s) ∧
    (∀ j : Inputs, j.stopButton = i.stopButton → checkState s j = checkState s i) := by
  refine ⟨?_, ?_, ?_⟩
  · intro hstop
    obtain ⟨h1, h2, h3, h4⟩ := running_stop_press s i hmode hstop
    refine ⟨h1, h2, h3, h4, ?_⟩
    intro hs
    have hp : s.interval.phase = Phase.running := (reachable_invariants s hs).2.mpr hmode
    rw [h4]
    exact ⟨(pause_of_running s.interval hp).1, (pause_of_running s.interval hp).2.1⟩
  · intro hstop
    unfold checkState
    rw [hmode]
    simp [hstop]
  · intro j hj
    unfold checkState
    rw [hmode]
    simp [hj]

/-- Instances of C16 in the running 30-second countdown: a stop press pauses
it, a poll with the encoder button and an encoder step changes nothing. -/
theorem running_poll_witness :
    running30.state = STATE.TIMER_RUNNING ∧
    (checkState running30 (cancelPress 6)).state = STATE.TIMER_PAUSED ∧
    (checkState running30 (cancelPress 6)).interval.phase = Phase.paused ∧
    checkState running30 (confirmWithTurn 7 1) = running30 :=
  ⟨by decide,
   ((running_poll running30 (cancelPress 6) (by decide)).1 rfl).1,
   (((running_poll running30 (cancelPress 6) (by decide)).1 rfl).2.2.2.2
      reachable_running30).1,
   (running_poll running30 (confirmWithTurn 7 1) (by decide)).2.1 rfl⟩

/-- C20: a poll that begins in `TIMER_EDITABLE`, `TIMER_SET` or
`TIMER_PAUSED` and reports a stop-button press ends in `INITIAL` with the
relay off and the countdown scheduler stopped, whatever the encoder button
and the start button report in the same poll: the stop button is handled
last. -/
theorem cancel_wins (s : Controller) (i : Inputs)
    (hmode : s.state = STATE.TIMER_EDITABLE ∨ s.state = STATE.TIMER_SET ∨
      s.state = STATE.TIMER_PAUSED)
    (hstop : i.stopButton = true) :
    (checkState s i).state = STATE.INITIAL ∧
    (checkState s i).uvLed = false ∧
    (checkState s i).interval.phase = Phase.stopped := by
  rcases hmode with h | h | h <;>
    (unfold checkState; rw [h]; simp [hstop, setState_interval, stop_phase])

/-- Instances of C20: in `TIMER_SET` and in `TIMER_PAUSED` a poll reporting
all three buttons ends in `INITIAL` with the relay off. -/
theorem cancel_wins_witness :
    armed30.state = STATE.TIMER_SET ∧
    (checkState armed30
      { encoderButton := true, startButton := true, stopButton := true,
        newPosition := 6, direction := 0 }).state = STATE.INITIAL ∧
    paused30.state = STATE.TIMER_PAUSED ∧
    (checkState paused30
      { encoderButton := true, startButton := true, stopButton := true,
        newPosition := 6, direction := 0 }).uvLed = false :=
  ⟨by decide,
   (cancel_wins armed30 _ (Or.inr (Or.inl (by decide))) rfl).1,
   by decide,
   (cancel_wins paused30 _ (Or.inr (Or.inr (by decide))) rfl).2.1⟩

/-! ## C19: what changes the secret counter -/

theorem checkState_secretButton (s : Controller) (i : Inputs)
    (h : ¬ (s.state = STATE.INITIAL ∧ i.stopButton = true)) :
    (checkState s i).secretButton = s.secretButton := by
  unfold checkState
  split <;> (try dsimp only) <;> (try split_ifs) <;>
    simp_all [handleSecret, display]

/-- C19: the secret counter is left unchanged by every poll except one that
begins in `INITIAL` and reports a stop-button press, by every call of
`setState`, by every blink tick, countdown tick and natural stop. So a count
of 3 survives an excursion `INITIAL`, `TIMER_EDITABLE`, `INITIAL`, and two
more presses in `INITIAL` then enter `SECRET`. -/
theorem secret_counter_frame :
    (∀ (s : Controller) (i : Inputs), ¬ (s.state = STATE.INITIAL ∧ i.stopButton = true) →
      (checkState s i).secretButton = s.secretButton) ∧
    (∀ (s : Controller) (n : STATE), (setState s n).secretButton = s.secretButton) ∧
    (∀ s : Controller,
      (blinkUpdate s).secretButton = s.secretButton ∧
      (countdownTick s).secretButton = s.secretButton ∧
      (naturalStop s).secretButton = s.secretButton) ∧
    ((polls powerOn (excursionInputs.take 3)).state = STATE.INITIAL ∧
      (polls powerOn (excursionInputs.take 3)).secretButton = 3 ∧
      (polls powerOn (excursionInputs.take 4)).state = STATE.TIMER_EDITABLE ∧
      (polls powerOn (excursionInputs.take 5)).state = STATE.INITIAL ∧
      (polls powerOn (excursionInputs.take 5)).secretButton = 3 ∧
      (polls powerOn (excursionInputs.take 6)).state = STATE.INITIAL ∧
      (polls powerOn excursionInputs).state = STATE.SECRET ∧
      (polls powerOn excursionInputs).secretButton = 0) := by
  refine ⟨checkState_secretButton, fun s n => setState_secretButton s n, ?_, by decide⟩
  intro s
  refine ⟨?_, ?_, ?_⟩
  · unfold blinkUpdate
    dsimp only
    split_ifs <;> simp [printTime, display]
  · unfold countdownTick
    split
    · dsimp only
      split_ifs <;> simp [onStop, onUpdate, printTime, digitalWriteUvLed]
    · rfl
  · unfold naturalStop
    split
    · simp [onStop, digitalWriteUvLed]
    · rfl

/-! ## C18: what a countdown tick renders -/

theorem countdownTick_before_eq (s : Controller) (h : s.interval.phase = Phase.running)
    (hlt : s.interval.count + 1 < s.interval.target) :
    countdownTick s =
      onUpdate { s with interval := { s.interval with count := s.interval.count + 1 } } := by
  have hn : ¬ s.interval.target ≤ s.interval.count + 1 := by omega
  unfold countdownTick
  rw [h]
  simp [onUpdate, printTime, hn]

theorem remaining_small (E c : Nat) (hE : E < ULONG_MOD) (hc : c ≤ E) (h16 : c ≤ 32767) :
    usub E (toULong (toShort (c : Int))) = E - c := by
  have h1 : toShort (c : Int) = (c : Int) := toShort_small _ (by omega) (by omega)
  have h2 : toULong (c : Int) = c := by
    unfold toULong
    omega
  rw [h1, h2]
  unfold usub ULONG_MOD at *
  omega

theorem turn_in_editable (s : Controller) (hmode : s.state = STATE.TIMER_EDITABLE) :
    (checkState s (turn (s.position + 1) 1)).state = STATE.TIMER_EDITABLE ∧
    (checkState s (turn (s.position + 1) 1)).exposureTime = uadd s.exposureTime 5 ∧
    (checkState s (turn (s.position + 1) 1)).interval = s.interval := by
  unfold checkState
  rw [hmode]
  simp [turn, readEncoder, hmode]

theorem turnsUp_editable (n : Nat) :
    ∀ s : Controller, s.state = STATE.TIMER_EDITABLE →
      s.exposureTime + 5 * n < ULONG_MOD →
      (turnsUp n s).state = STATE.TIMER_EDITABLE ∧
      (turnsUp n s).exposureTime = s.exposureTime + 5 * n ∧
      (turnsUp n s).interval = s.interval := by
  induction n with
  | zero => intro s hmode _; simp [turnsUp, hmode]
  | succ n ih =>
    intro s hmode hlt
    obtain ⟨a1, a2, a3⟩ := turn_in_editable s hmode
    have ha : uadd s.exposureTime 5 = s.exposureTime + 5 := by
      unfold uadd ULONG_MOD at *
      omega
    obtain ⟨b1, b2, b3⟩ := ih (checkState s (turn (s.position + 1) 1)) a1
      (by rw [a2, ha]; omega)
    simp only [turnsUp]
    refine ⟨b1, ?_, by rw [b3, a3]⟩
    rw [b2, a2, ha]
    omega

theorem reachable_turnsUp (n : Nat) :
    ∀ s : Controller, Reachable s → Reachable (turnsUp n s) := by
  induction n with
  | zero => intro s hs; exact hs
  | succ n ih => intro s hs; exact ih _ (reachable_checkState s _ hs)

theorem setState_exposureTime (s : Controller) (n : STATE) (hn : n ≠ STATE.INITIAL) :
    (setState s n).exposureTime = s.exposureTime := by
  cases n <;> by_cases hs : s.state = STATE.TIMER_EDITABLE <;>
    simp_all [setState, startTimer, pauseTimer, stopTimer, display, printTime, digitalWriteUvLed]

theorem readEncoder_still (s : Controller) (p : Int) :
    (readEncoder s p 0).exposureTime = s.exposureTime := by
  unfold readEncoder
  split_ifs <;> simp_all

theorem start_from_editable (e : Controller) (E : Nat)
    (a1 : e.state = STATE.TIMER_EDITABLE) (a2 : e.exposureTime = E) (hE : E ≠ 0)
    (a3 : e.interval.phase = Phase.stopped) :
    (checkState (checkState e (confirmPress 0)) (startPress 0)).state = STATE.TIMER_RUNNING ∧
    (checkState (checkState e (confirmPress 0)) (startPress 0)).exposureTime = E ∧
    (checkState (checkState e (confirmPress 0)) (startPress 0)).interval =
      { phase := Phase.running, count := 0, target := E } := by
  have hE2 : e.exposureTime ≠ 0 := by rw [a2]; exact hE
  have hc : checkState e (confirmPress 0) = readEncoder (setState e STATE.TIMER_SET) 0 0 := by
    unfold checkState
    rw [a1]
    simp [confirmPress, turn, hE2]
  have b1 : (checkState e (confirmPress 0)).state = STATE.TIMER_SET := by
    rw [hc]; simp
  have b2 : (checkState e (confirmPress 0)).exposureTime = E := by
    rw [hc, readEncoder_still, setState_exposureTime _ _ (by decide), a2]
  have b3 : (checkState e (confirmPress 0)).interval.phase = Phase.stopped := by
    rw [hc, readEncoder_interval, setState_interval, a3]
  generalize checkState e (confirmPress 0) = a at b1 b2 b3
  have hd : checkState a (startPress 0) = setState a STATE.TIMER_RUNNING := by
    unfold checkState
    rw [b1]
    simp [startPress, turn]
  rw [hd]
  refine ⟨by simp, by rw [setState_exposureTime _ _ (by decide), b2], ?_⟩
  rw [setState_interval]
  simp only [IntervalCounter.startForCount, b3, b2]

theorem running40000_fields :
    Reachable running40000 ∧ running40000.state = STATE.TIMER_RUNNING ∧
    running40000.exposureTime = 40000 ∧
    running40000.interval = { phase := Phase.running, count := 0, target := 40000 } := by
  have he : editing0.state = STATE.TIMER_EDITABLE := by decide
  have hx : editing0.exposureTime = 0 := by decide
  have hi : editing0.interval.phase = Phase.stopped := by decide
  obtain ⟨a1, a2, a3⟩ := turnsUp_editable 8000 editing0 he (by rw [hx]; unfold ULONG_MOD; omega)
  have a2' : (turnsUp 8000 editing0).exposureTime = 40000 := by rw [a2, hx]
  have hr : Reachable (turnsUp 8000 editing0) :=
    reachable_turnsUp 8000 editing0 (reachable_checkState _ _ Reachable.init)
  have key := start_from_editable (turnsUp 8000 editing0) 40000 a1 a2' (by omega)
    (by rw [a3]; exact hi)
  exact ⟨reachable_checkState _ _ (reachable_checkState _ _ hr), key⟩

theorem onUpdate_fields (s : Controller) :
    (onUpdate s).state = s.state ∧ (onUpdate s).exposureTime = s.exposureTime ∧
    (onUpdate s).uvLed = s.uvLed ∧ (onUpdate s).interval = s.interval ∧
    (onUpdate s).out =
      Effect.printTime (getMinutes (usub s.exposureTime (toULong (toShort s.interval.count))))
        (getSeconds (usub s.exposureTime (toULong (toShort s.interval.count)))) :: s.out := by
  simp [onUpdate, printTime]

theorem render_at_32768 (l : Controller) (b1 : l.state = STATE.TIMER_RUNNING)
    (b3 : l.exposureTime = 40000) (b4 : l.interval.phase = Phase.running)
    (b5 : l.interval.count = 32767) (b6 : l.interval.target = 40000) :
    (countdownTick l).state = STATE.TIMER_RUNNING ∧
    (countdownTick l).interval.count = 32768 ∧
    (countdownTick l).out = Effect.printTime 12 48 :: l.out := by
  have hstep := countdownTick_before_eq l b4 (by rw [b5, b6]; omega)
  have hnum : usub 40000 (toULong (toShort ((32768 : Nat) : Int))) = 72768 := by decide
  refine ⟨?_, ?_, ?_⟩
  · rw [hstep, (onUpdate_fields _).1]
    exact b1
  · rw [hstep, (onUpdate_fields _).2.2.2.1]
    simp [b5]
  · rw [hstep, (onUpdate_fields _).2.2.2.2]
    simp only [b3, b5]
    rw [hnum]
    simp [getMinutes, getSeconds]

theorem longRunning_fields :
    Reachable longRunning ∧ longRunning.state = STATE.TIMER_RUNNING ∧
    longRunning.exposureTime = 40000 ∧ longRunning.interval.phase = Phase.running ∧
    longRunning.interval.count = 32767 ∧ longRunning.interval.target = 40000 := by
  obtain ⟨hr, h1, h2, h3⟩ := running40000_fields
  have hp : running40000.interval.phase = Phase.running := by rw [h3]
  have hc : running40000.interval.count = 0 := by rw [h3]
  have ht : running40000.interval.target = 40000 := by rw [h3]
  obtain ⟨a1, _, a3, a4, a5, a6, _⟩ :=
    ticks_before 32767 running40000 hp (by rw [hc, ht]; omega)
  refine ⟨reachable_ticks 32767 running40000 hr, ?_, ?_, ?_, ?_, ?_⟩
  · unfold longRunning; rw [a1, h1]
  · unfold longRunning; rw [a3, h2]
  · unfold longRunning; exact a4
  · unfold longRunning; rw [a5, hc]
  · unfold longRunning; rw [a6, ht]

/-- C18 does not hold for elapsed counts above 32767: the callback stores
`interval.count()` in an `int` (16 bits). In the reachable state with
exposure time 40000 and elapsed count 32767, the next tick (elapsed count
32768, remaining 7232, that is 00:32 on the display) renders 12:48, the
minutes and seconds of 40000 + 32768. -/
theorem tick_render_wraps :
    Reachable longRunning ∧
    longRunning.state = STATE.TIMER_RUNNING ∧
    longRunning.exposureTime = 40000 ∧
    longRunning.interval.count = 32767 ∧
    (countdownTick longRunning).state = STATE.TIMER_RUNNING ∧
    (countdownTick longRunning).interval.count = 32768 ∧
    (countdownTick longRunning).out = Effect.printTime 12 48 :: longRunning.out ∧
    (getMinutes (40000 - 32768) = 0 ∧ getSeconds (40000 - 32768) = 32) := by
  obtain ⟨hr, b1, b3, b4, b5, b6⟩ := longRunning_fields
  obtain ⟨c1, c2, c3⟩ := render_at_32768 longRunning b1 b3 b4 b5 b6
  exact ⟨hr, b1, b3, b5, c1, c2, c3, by decide, by decide⟩

/-- C18, amended: when the on-tick callback runs with elapsed count `e`, with
`e ≤ exposureTime` and `e ≤ 32767` (the range of the `int` that holds it), it
renders `exposureTime - e` as `getMinutes : getSeconds` and changes neither
the mode nor the exposure time; so does every countdown tick that does not
complete the countdown. -/
theorem tick_renders_remaining (s : Controller)
    (hE : s.exposureTime < ULONG_MOD)
    (hc : s.interval.count ≤ s.exposureTime) (h16 : s.interval.count ≤ 32767) :
    ((onUpdate s).out =
        Effect.printTime (getMinutes (s.exposureTime - s.interval.count))
          (getSeconds (s.exposureTime - s.interval.count)) :: s.out ∧
      (onUpdate s).state = s.state ∧
      (onUpdate s).exposureTime = s.exposureTime) ∧
    (∀ p : Controller, p.interval.phase = Phase.running →
      p.interval.count + 1 < p.interval.target →
      s = { p with interval := { p.interval with count := p.interval.count + 1 } } →
      countdownTick p = onUpdate s ∧
      (countdownTick p).state = p.state ∧
      (countdownTick p).exposureTime = p.exposureTime ∧
      (countdownTick p).out =
        Effect.printTime (getMinutes (p.exposureTime - (p.interval.count + 1)))
          (getSeconds (p.exposureTime - (p.interval.count + 1))) :: p.out) := by
  obtain ⟨f1, f2, _, _, f5⟩ := onUpdate_fields s
  have hrem := remaining_small s.exposureTime s.interval.count hE hc h16
  have hout : (onUpdate s).out =
      Effect.printTime (getMinutes (s.exposureTime - s.interval.count))
        (getSeconds (s.exposureTime - s.interval.count)) :: s.out := by
    rw [f5, hrem]
  refine ⟨⟨hout, f1, f2⟩, ?_⟩
  intro p hp hlt hs
  have hstep := countdownTick_before_eq p hp hlt
  rw [← hs] at hstep
  refine ⟨hstep, ?_, ?_, ?_⟩
  · rw [hstep, f1, hs]
  · rw [hstep, f2, hs]
  · rw [hstep, hout, hs]

/-- Instance of amended C18: in the 30-second countdown the callback run at
elapsed count 10 renders 00:20. -/
theorem tick_renders_remaining_witness :
    (ticks 10 running30).exposureTime = 30 ∧ (ticks 10 running30).interval.count = 10 ∧
    (onUpdate (ticks 10 running30)).out =
      Effect.printTime 0 20 :: (ticks 10 running30).out :=
  ⟨by decide, by decide,
   (tick_renders_remaining (ticks 10 running30) (by decide) (by decide) (by decide)).1.1⟩

/-! ## C3: pause and resume after a re-arm -/

theorem start_press_fresh (s : Controller) (i : Inputs) (hmode : s.state = STATE.TIMER_SET)
    (hphase : s.interval.phase = Phase.stopped)
    (hstart : i.startButton = true) (hstop : i.stopButton = false) :
    (checkState s i).state = STATE.TIMER_RUNNING ∧
    (checkState s i).exposureTime = s.exposureTime ∧
    (checkState s i).interval =
      { phase := Phase.running, count := 0, target := s.exposureTime } := by
  unfold checkState
  rw [hmode]
  cases hc : i.encoderButton <;>
    simp [hstart, hstop, setState_interval, setState_exposureTime,
      IntervalCounter.startForCount, hphase]

theorem reachable_paused30 : Reachable paused30 :=
  reachable_checkState _ _ (reachable_ticks 10 _ reachable_running30)

/-- C3 does not hold of the code for a countdown started after the
transition `TIMER_PAUSED` to `TIMER_EDITABLE`, which leaves the scheduler
paused (the defect of C15). The 30-second countdown paused at 10 ticks and
re-armed unchanged starts, for the scheduler, at elapsed count 10. After
`k = 10` ticks in `TIMER_RUNNING`, a stop press and a start press, the mode
is `TIMER_RUNNING` with elapsed count 20, and natural completion is
signalled once, on the 10th further tick, not on the 20th (`D - k`). -/
theorem rearmed_resume_completes_early :
    Reachable resumedRearmed30 ∧
    (rearmed30.state = STATE.TIMER_RUNNING ∧ rearmed30.exposureTime = 30 ∧
      rearmed30.interval.count = 10) ∧
    ((ticks 10 rearmed30).state = STATE.TIMER_RUNNING ∧
      (ticks 10 rearmed30).interval.count = 20) ∧
    (resumedRearmed30.state = STATE.TIMER_RUNNING ∧ resumedRearmed30.uvLed = true ∧
      resumedRearmed30.exposureTime = 30 ∧ resumedRearmed30.interval.count = 20) ∧
    ((ticks 9 resumedRearmed30).state = STATE.TIMER_RUNNING ∧
      completions 9 resumedRearmed30 = 0) ∧
    ((ticks 10 resumedRearmed30).state = STATE.INITIAL ∧
      completions 10 resumedRearmed30 = 1 ∧
      completions 20 resumedRearmed30 = 1) :=
  ⟨reachable_polls _ _ (reachable_ticks 10 _ (reachable_polls _ _ reachable_paused30)),
   by decide, by decide, by decide, by decide, by decide⟩

end UvLed
